import Mathlib

/-
Verification of the AmazonS3 storage-client facade (src/amazons3.py).

The facade wraps a vendor SDK client (boto3 "s3" client).  We embed each
facade method as a pure Lean function over
  - the facade state `AmazonS3` (the fields Python stores on `self`), and
  - an `S3Client`: the vendor client modelled as a record of response
    functions, one per vendor operation, mapping the argument record the
    facade passes to a `Vendor` outcome (a normal return or a raised
    `ClientError`).
A method's observable behaviour is an `MRes`: the Python return value or an
uncaught `ClientError`, together with the list of errors written through
`logging.error`.  Universally quantifying a theorem over the `S3Client`
pins down exactly which vendor operation a method invokes and with which
arguments.
-/

namespace S3

/-- A botocore `ClientError`; `code` models `e.response['Error']['Code']`. -/
structure ClientError where
  code : String
deriving DecidableEq, Repr

/-- Outcome of one vendor SDK call: a normal return or a raised `ClientError`. -/
abbrev Vendor (α : Type) := Except ClientError α

deriving instance DecidableEq for Except

/-- Observable behaviour of one facade method call: the Python return value
(or an uncaught `ClientError` propagating to the caller) and the errors the
method wrote through `logging.error`, in order. -/
structure MRes (α : Type) where
  result : Except ClientError α
  log : List ClientError
deriving DecidableEq, Repr

/-- `boto3.s3.transfer.TransferConfig` value object, per the spec's data
model: multipart threshold, max concurrency, use-threads flag; a field left
`none` is unset and takes the provider default. -/
structure TransferConfig where
  multipart_threshold : Option Nat
  max_concurrency : Option Nat
  use_threads : Option Bool
deriving DecidableEq, Repr

/-- `TransferConfig()` with no arguments: all fields unset/provider-default. -/
def TransferConfig.default : TransferConfig := ⟨none, none, none⟩

/-- Value stored under a key of an extra-args mapping: a string (ACL,
grants) or a string-to-string mapping (Metadata). -/
inductive ArgVal
  | str (s : String)
  | map (m : List (String × String))
deriving DecidableEq, Repr

/-- An extra-args mapping, as a Python dict: insertion-ordered key/value list. -/
abbrev ExtraArgs := List (String × ArgVal)

/-- An opaque progress-callback handle (the facade passes callbacks through
without inspecting them). -/
abbrev Callback := Nat

/-- A Python file-like object; `name` models its `name` attribute. -/
structure Fileobj where
  name : String
deriving DecidableEq, Repr

/-- The value passed in the vendor `download_file` operation's third
positional (`Filename`) slot — Python is untyped, so the facade can pass a
file-name string or (erroneously) a file-like object there. -/
inductive FileTarget
  | path (name : String)
  | stream (f : Fileobj)
deriving DecidableEq, Repr

/-- A JSON-serialisable Python structure (policy, website and CORS
documents, raw vendor responses). -/
inductive Json
  | null
  | bool (b : Bool)
  | num (n : Int)
  | str (s : String)
  | arr (xs : List Json)
  | obj (kvs : List (String × Json))
deriving Repr

mutual

/-- Modelled from the spec: Python stdlib `json.dumps` (external to the
repository), which serialises a JSON-compatible structure to a string; the
facade uses it only to JSON-encode the bucket policy document.  Character
escaping inside strings is not modelled. -/
def Json.dumps : Json → String
  | .null => "null"
  | .bool true => "true"
  | .bool false => "false"
  | .num n => toString n
  | .str s => "\"" ++ s ++ "\""
  | .arr xs => "[" ++ Json.dumpsArr xs ++ "]"
  | .obj kvs => "\x7b" ++ Json.dumpsObj kvs ++ "\x7d"

/-- Comma-separated serialisation of a JSON array's elements. -/
def Json.dumpsArr : List Json → String
  | [] => ""
  | [x] => Json.dumps x
  | x :: xs => Json.dumps x ++ ", " ++ Json.dumpsArr xs

/-- Comma-separated serialisation of a JSON object's key/value pairs. -/
def Json.dumpsObj : List (String × Json) → String
  | [] => ""
  | [(k, v)] => "\"" ++ k ++ "\": " ++ Json.dumps v
  | (k, v) :: kvs => "\"" ++ k ++ "\": " ++ Json.dumps v ++ ", " ++ Json.dumpsObj kvs

end

/-- The `CreateBucketConfiguration` document: `{'LocationConstraint': region}`. -/
structure LocationConf where
  LocationConstraint : String
deriving DecidableEq, Repr

/-- Arguments of the vendor `create_bucket` operation; `config` is `none`
when the facade omits `CreateBucketConfiguration`. -/
structure CreateBucketCall where
  Bucket : String
  config : Option LocationConf
deriving DecidableEq, Repr

/-- Arguments of the vendor `upload_file` operation (positionals
`Filename, Bucket, Key` plus keyword arguments). -/
structure UploadFileCall where
  Filename : String
  Bucket : String
  Key : String
  ExtraArgs : Option ExtraArgs
  Callback : Option Callback
  Config : TransferConfig
deriving DecidableEq, Repr

/-- Arguments of the vendor `upload_fileobj` operation (positionals
`Fileobj, Bucket, Key` plus keyword arguments). -/
structure UploadFileobjCall where
  Fileobj : Fileobj
  Bucket : String
  Key : String
  ExtraArgs : Option ExtraArgs
  Callback : Option Callback
  Config : TransferConfig
deriving DecidableEq, Repr

/-- Arguments of the vendor `download_file` operation (positionals
`Bucket, Key, Filename` plus `Config`). -/
structure DownloadFileCall where
  Bucket : String
  Key : String
  Filename : FileTarget
  Config : TransferConfig
deriving DecidableEq, Repr

/-- Arguments of the vendor stream-targeted `download_fileobj` operation
(which the repository never invokes — see `download_fileobj` below). -/
structure DownloadFileobjCall where
  Bucket : String
  Key : String
  Fileobj : Fileobj
  Config : TransferConfig
deriving DecidableEq, Repr

/-- Arguments of the vendor `generate_presigned_url` operation. -/
structure GeneratePresignedUrlCall where
  ClientMethod : String
  Params : Option (List (String × String))
  ExpiresIn : Nat
  HttpMethod : Option String
deriving DecidableEq, Repr

/-- Arguments of the vendor `generate_presigned_post` operation. -/
structure GeneratePresignedPostCall where
  BucketName : String
  ObjectName : String
  Fields : Option (List (String × String))
  Conditions : Option (List (List (String × String)))
  ExpiresIn : Nat
deriving DecidableEq, Repr

/-- The vendor `generate_presigned_post` response: `{url, fields}`. -/
structure PresignedPost where
  url : String
  fields : List (String × String)
deriving DecidableEq, Repr

/-- The vendor `get_bucket_policy` response; `Policy` models
`result['Policy']`, a JSON string. -/
structure GetBucketPolicyResp where
  Policy : String
deriving DecidableEq, Repr

/-- Arguments of the vendor `put_bucket_policy` operation; `Policy` is the
already-serialised policy string. -/
structure PutBucketPolicyCall where
  Bucket : String
  Policy : String
deriving DecidableEq, Repr

/-- Arguments of the vendor `put_bucket_website` operation. -/
structure PutBucketWebsiteCall where
  Bucket : String
  WebsiteConfiguration : Json
deriving Repr

/-- The vendor `get_bucket_cors` response; `CORSRules` models
`response['CORSRules']`, a list of opaque rule documents. -/
structure GetBucketCorsResp where
  CORSRules : List Json
deriving Repr

/-- Arguments of the vendor `put_bucket_cors` operation. -/
structure PutBucketCorsCall where
  Bucket : String
  CORSConfiguration : Json
deriving Repr

/-- The vendor SDK client (`self.s3_client`), modelled as a record of
response functions: each field maps the arguments the facade passes to the
outcome the vendor produces for them. -/
structure S3Client where
  create_bucket : CreateBucketCall → Vendor Unit
  list_buckets : Unit → Vendor (List String)
  upload_file : UploadFileCall → Vendor Unit
  upload_fileobj : UploadFileobjCall → Vendor Unit
  download_file : DownloadFileCall → Vendor Unit
  download_fileobj : DownloadFileobjCall → Vendor Unit
  generate_presigned_url : GeneratePresignedUrlCall → Vendor String
  generate_presigned_post : GeneratePresignedPostCall → Vendor PresignedPost
  get_bucket_policy : String → Vendor GetBucketPolicyResp
  put_bucket_policy : PutBucketPolicyCall → Vendor Unit
  delete_bucket_policy : String → Vendor Unit
  get_bucket_acl : String → Vendor Json
  get_bucket_website : String → Vendor Json
  put_bucket_website : PutBucketWebsiteCall → Vendor Unit
  delete_bucket_website : String → Vendor Json
  get_bucket_cors : String → Vendor GetBucketCorsResp
  put_bucket_cors : PutBucketCorsCall → Vendor Unit

/-- The facade state: the fields `AmazonS3.__init__` stores on `self`
(the client handle itself is passed to each method separately as the
`S3Client` oracle). -/
structure AmazonS3 where
  aws_access_key_id : Option String
  aws_secret_access_key : Option String
  region_name : Option String
  config : TransferConfig

/-- `AmazonS3.create_bucket`: create a bucket, omitting the
`CreateBucketConfiguration` when `self.region_name` is `None`, else
submitting `{'LocationConstraint': self.region_name}`; `ClientError` is
caught, logged and turned into `False`; success returns `True`. -/
def create_bucket (self : AmazonS3) (client : S3Client) (bucket_name : String) :
    MRes Bool :=
  match self.region_name with
  | none =>
    match client.create_bucket ⟨bucket_name, none⟩ with
    | .ok _ => ⟨.ok true, []⟩
    | .error e => ⟨.ok false, [e]⟩
  | some r =>
    match client.create_bucket ⟨bucket_name, some ⟨r⟩⟩ with
    | .ok _ => ⟨.ok true, []⟩
    | .error e => ⟨.ok false, [e]⟩

/-- `AmazonS3.upload_file`: `object_name` defaults to `file_name`, `config`
defaults to `self.config`; `ClientError` is caught, logged and turned into
`False`; success returns `True`. -/
def upload_file (self : AmazonS3) (client : S3Client) (file_name bucket : String)
    (object_name : Option String) (extra_args : Option ExtraArgs)
    (callback : Option Callback) (config : Option TransferConfig) : MRes Bool :=
  let object_name := object_name.getD file_name
  let config := config.getD self.config
  match client.upload_file ⟨file_name, bucket, object_name, extra_args, callback, config⟩ with
  | .ok _ => ⟨.ok true, []⟩
  | .error e => ⟨.ok false, [e]⟩

/-- `AmazonS3.upload_fileobj`: `object_name` is a required positional
parameter (no default); `config` defaults to `self.config`; `ClientError`
is caught, logged and turned into `False`; success returns `True`. -/
def upload_fileobj (self : AmazonS3) (client : S3Client) (fileobj : Fileobj)
    (bucket : String) (object_name : String) (extra_args : Option ExtraArgs)
    (callback : Option Callback) (config : Option TransferConfig) : MRes Bool :=
  let config := config.getD self.config
  match client.upload_fileobj ⟨fileobj, bucket, object_name, extra_args, callback, config⟩ with
  | .ok _ => ⟨.ok true, []⟩
  | .error e => ⟨.ok false, [e]⟩

/-- Python call semantics for `upload_fileobj` with the `object_name`
argument possibly omitted at the call site: `object_name` has no default in
the `def`, so omitting it raises `TypeError` before the body runs — `none`
models that outcome (no vendor call, no log). -/
def call_upload_fileobj (self : AmazonS3) (client : S3Client) (fileobj : Fileobj)
    (bucket : String) (object_name : Option String) (extra_args : Option ExtraArgs)
    (callback : Option Callback) (config : Option TransferConfig) :
    Option (MRes Bool) :=
  object_name.map fun o =>
    upload_fileobj self client fileobj bucket o extra_args callback config

/-- `AmazonS3.download_file`: `file_name` defaults to `object_name`,
`config` defaults to `self.config`; the vendor call's outcome is returned
as-is (no try/except, no logging). -/
def download_file (self : AmazonS3) (client : S3Client) (bucket object_name : String)
    (file_name : Option String) (config : Option TransferConfig) : MRes Unit :=
  let file_name := file_name.getD object_name
  let config := config.getD self.config
  ⟨client.download_file ⟨bucket, object_name, .path file_name, config⟩, []⟩

/-- `AmazonS3.download_fileobj`: `config` defaults to `self.config`; the
body invokes the vendor `download_file` operation, passing `fileobj` in the
`Filename` positional slot, and returns that outcome as-is. -/
def download_fileobj (self : AmazonS3) (client : S3Client) (bucket object_name : String)
    (fileobj : Fileobj) (config : Option TransferConfig) : MRes Unit :=
  let config := config.getD self.config
  ⟨client.download_file ⟨bucket, object_name, .stream fileobj, config⟩, []⟩

/-- `AmazonS3.put_transfer_config`: builds a fresh `TransferConfig` from
exactly the call's arguments, assigns it to `self.config`, and returns
`True`.  The result pairs the updated facade state with the return value. -/
def put_transfer_config (self : AmazonS3) (multipart_threshold : Option Nat)
    (max_concurrency : Option Nat) (use_threads : Option Bool) : AmazonS3 × Bool :=
  ({ self with config := ⟨multipart_threshold, max_concurrency, use_threads⟩ }, true)

/-- `AmazonS3.get_transfer_config`: builds and returns a fresh
`TransferConfig` from the call's arguments without touching facade state. -/
def get_transfer_config (_self : AmazonS3) (multipart_threshold : Option Nat)
    (max_concurrency : Option Nat) (use_threads : Option Bool) : TransferConfig :=
  ⟨multipart_threshold, max_concurrency, use_threads⟩

/-- `AmazonS3.create_presigned_url`: requests a presigned GET URL for the
object via `generate_presigned_url('get_object', …)`; `ClientError` is
caught, logged and turned into `None`. -/
def create_presigned_url (_self : AmazonS3) (client : S3Client)
    (bucket_name object_name : String) (expiration : Nat) : MRes (Option String) :=
  match client.generate_presigned_url
      ⟨"get_object", some [("Bucket", bucket_name), ("Key", object_name)], expiration, none⟩ with
  | .ok response => ⟨.ok (some response), []⟩
  | .error e => ⟨.ok none, [e]⟩

/-- `AmazonS3.create_presigned_url_expanded`: presigns an arbitrary client
method by name; `ClientError` is caught, logged and turned into `None`. -/
def create_presigned_url_expanded (_self : AmazonS3) (client : S3Client)
    (client_method_name : String) (method_parameters : Option (List (String × String)))
    (expiration : Nat) (http_method : Option String) : MRes (Option String) :=
  match client.generate_presigned_url
      ⟨client_method_name, method_parameters, expiration, http_method⟩ with
  | .ok response => ⟨.ok (some response), []⟩
  | .error e => ⟨.ok none, [e]⟩

/-- `AmazonS3.create_presigned_post`: requests a presigned POST
`{url, fields}` structure; `ClientError` is caught, logged and turned into
`None`. -/
def create_presigned_post (_self : AmazonS3) (client : S3Client)
    (bucket_name object_name : String) (fields : Option (List (String × String)))
    (conditions : Option (List (List (String × String)))) (expiration : Nat) :
    MRes (Option PresignedPost) :=
  match client.generate_presigned_post
      ⟨bucket_name, object_name, fields, conditions, expiration⟩ with
  | .ok response => ⟨.ok (some response), []⟩
  | .error e => ⟨.ok none, [e]⟩

/-- `AmazonS3.get_bucket_policy`: returns `result['Policy']`; no
try/except, so a vendor error propagates. -/
def get_bucket_policy (_self : AmazonS3) (client : S3Client) (bucket_name : String) :
    MRes String :=
  match client.get_bucket_policy bucket_name with
  | .ok result => ⟨.ok result.Policy, []⟩
  | .error e => ⟨.error e, []⟩

/-- `AmazonS3.put_bucket_policy`: serialises the policy document with
`json.dumps`, submits the string, and returns `True`; no try/except, so a
vendor error propagates. -/
def put_bucket_policy (_self : AmazonS3) (client : S3Client) (bucket_name : String)
    (bucket_policy : Json) : MRes Bool :=
  let bucket_policy := Json.dumps bucket_policy
  match client.put_bucket_policy ⟨bucket_name, bucket_policy⟩ with
  | .ok _ => ⟨.ok true, []⟩
  | .error e => ⟨.error e, []⟩

/-- `AmazonS3.delete_bucket_policy`: deletes the policy and returns `True`;
no try/except, so a vendor error propagates. -/
def delete_bucket_policy (_self : AmazonS3) (client : S3Client) (bucket_name : String) :
    MRes Bool :=
  match client.delete_bucket_policy bucket_name with
  | .ok _ => ⟨.ok true, []⟩
  | .error e => ⟨.error e, []⟩

/-- `AmazonS3.get_bucket_acl`: returns the vendor response verbatim; no
try/except, so a vendor error propagates. -/
def get_bucket_acl (_self : AmazonS3) (client : S3Client) (bucket_name : String) :
    MRes Json :=
  ⟨client.get_bucket_acl bucket_name, []⟩

/-- `AmazonS3.get_bucket_website`: returns the vendor response verbatim; no
try/except, so a vendor error propagates. -/
def get_bucket_website (_self : AmazonS3) (client : S3Client) (bucket_name : String) :
    MRes Json :=
  ⟨client.get_bucket_website bucket_name, []⟩

/-- `AmazonS3.put_bucket_website`: submits the website configuration and
returns `True`; no try/except, so a vendor error propagates. -/
def put_bucket_website (_self : AmazonS3) (client : S3Client) (bucket_name : String)
    (website_configuration : Json) : MRes Bool :=
  match client.put_bucket_website ⟨bucket_name, website_configuration⟩ with
  | .ok _ => ⟨.ok true, []⟩
  | .error e => ⟨.error e, []⟩

/-- The Python value `AmazonS3.delete_bucket_website` can return: the
facade is untyped, so the value space covers both the boolean sentinel the
sibling mutators return and a raw vendor response dict. -/
inductive WebRet
  | sentinel (b : Bool)
  | response (r : Json)
deriving Repr

/-- `AmazonS3.delete_bucket_website`: returns the vendor call's return
value verbatim (it does not return `True`); no try/except, so a vendor
error propagates. -/
def delete_bucket_website (_self : AmazonS3) (client : S3Client) (bucket_name : String) :
    MRes WebRet :=
  match client.delete_bucket_website bucket_name with
  | .ok r => ⟨.ok (.response r), []⟩
  | .error e => ⟨.error e, []⟩

/-- `AmazonS3.get_bucket_cors`: returns `response['CORSRules']` on success;
on a `ClientError` with code `NoSuchCORSConfiguration` returns the empty
list (not logged); any other `ClientError` is logged and turned into
`None`. -/
def get_bucket_cors (_self : AmazonS3) (client : S3Client) (bucket_name : String) :
    MRes (Option (List Json)) :=
  match client.get_bucket_cors bucket_name with
  | .ok response => ⟨.ok (some response.CORSRules), []⟩
  | .error e =>
    if e.code = "NoSuchCORSConfiguration" then ⟨.ok (some []), []⟩
    else ⟨.ok none, [e]⟩

/-- `AmazonS3.put_bucket_cors`: submits the CORS configuration and returns
`True`; no try/except, so a vendor error propagates. -/
def put_bucket_cors (_self : AmazonS3) (client : S3Client) (bucket_name : String)
    (cors_configuration : Json) : MRes Bool :=
  match client.put_bucket_cors ⟨bucket_name, cors_configuration⟩ with
  | .ok _ => ⟨.ok true, []⟩
  | .error e => ⟨.error e, []⟩

/-- Python dict assignment `d[k] = v` on an insertion-ordered dict: an
existing key keeps its position and gets the new value; a new key is
appended at the end. -/
def dictSet (d : ExtraArgs) (k : String) (v : ArgVal) : ExtraArgs :=
  if d.any (fun p => p.1 = k)
  then d.map (fun p => if p.1 = k then (k, v) else p)
  else d ++ [(k, v)]

/-
The extra-args builders take their `args` dict by reference and assign into
it, and each has a dict-valued *default argument*.  Python evaluates a
default argument once, when the `def` is executed, and every later call
that omits the argument reuses that same object.  To capture object
identity we model dicts through an explicit heap: a builder receives an
optional reference (`none` = argument omitted at the call site) and returns
the reference of the dict it mutated and returned.
-/

/-- The heap of live dict objects: contents of each reference, plus the
next fresh reference. -/
structure Heap where
  cells : Nat → ExtraArgs
  next : Nat

/-- Dict contents at a reference. -/
def Heap.get (h : Heap) (r : Nat) : ExtraArgs := h.cells r

/-- In-place update of the dict at a reference. -/
def Heap.set (h : Heap) (r : Nat) (d : ExtraArgs) : Heap :=
  ⟨fun i => if i = r then d else h.cells i, h.next⟩

/-- Evaluation of a dict literal such as `{}`: a fresh object. -/
def Heap.alloc (h : Heap) (d : ExtraArgs) : Heap × Nat :=
  (⟨fun i => if i = h.next then d else h.cells i, h.next + 1⟩, h.next)

/-- Reference of `extra_metadata`'s default `args={}` object, created when
the `def` is executed at module load. -/
def extraMetadataDefault : Nat := 0

/-- Reference of `extra_public_read`'s default `args={}` object. -/
def extraPublicReadDefault : Nat := 1

/-- Reference of `extra_grant`'s default `args={}` object. -/
def extraGrantDefault : Nat := 2

/-- The heap right after module load: the three builders' default dicts,
each empty, already allocated. -/
def initHeap : Heap := ⟨fun _ => [], 3⟩

/-- `AmazonS3.extra_metadata`: `args['Metadata'] = metadata; return args`,
where an omitted `args` means the shared default object. -/
def extra_metadata (metadata : List (String × String)) (args : Option Nat)
    (h : Heap) : Heap × Nat :=
  let r := args.getD extraMetadataDefault
  (h.set r (dictSet (h.get r) "Metadata" (.map metadata)), r)

/-- `AmazonS3.extra_public_read`: `args['ACL'] = 'public-read'; return
args`, where an omitted `args` means the shared default object. -/
def extra_public_read (args : Option Nat) (h : Heap) : Heap × Nat :=
  let r := args.getD extraPublicReadDefault
  (h.set r (dictSet (h.get r) "ACL" (.str "public-read")), r)

/-- `AmazonS3.extra_grant`: `args['GrantRead'] = grant_read;
args['GrantFullControl'] = grant_full_control; return args`, where an
omitted `args` means the shared default object. -/
def extra_grant (grant_read grant_full_control : String) (args : Option Nat)
    (h : Heap) : Heap × Nat :=
  let r := args.getD extraGrantDefault
  let h := h.set r (dictSet (h.get r) "GrantRead" (.str grant_read))
  (h.set r (dictSet (h.get r) "GrantFullControl" (.str grant_full_control)), r)

/-
Spec-side outcome translations, used by the theorems to state which error
policy a method follows.
-/

/-- Swallow-and-log policy of the boolean operations: vendor success maps
to `True`; a vendor `ClientError` is logged and mapped to `False`, never
re-raised. -/
def swallowBool {α : Type} : Vendor α → MRes Bool
  | .ok _ => ⟨.ok true, []⟩
  | .error e => ⟨.ok false, [e]⟩

/-- Swallow-and-log policy of the presigned generators: vendor success maps
to the response; a vendor `ClientError` is logged and mapped to `None`,
never re-raised. -/
def swallowOpt {α : Type} : Vendor α → MRes (Option α)
  | .ok v => ⟨.ok (some v), []⟩
  | .error e => ⟨.ok none, [e]⟩

/-- Propagate policy: the vendor outcome is returned as-is — a vendor
`ClientError` reaches the caller unhandled and nothing is logged. -/
def propagate {α : Type} : Vendor α → MRes α
  | .ok v => ⟨.ok v, []⟩
  | .error e => ⟨.error e, []⟩

/-- Propagate policy of the configuration mutators: vendor success maps to
the constant `True`; a vendor `ClientError` reaches the caller unhandled. -/
def propagateTrue {α : Type} : Vendor α → MRes Bool
  | .ok _ => ⟨.ok true, []⟩
  | .error e => ⟨.error e, []⟩

/-
Concrete fixtures for witnesses and counterexamples.
-/

/-- A facade state with no credentials, no region, and the default transfer
configuration — `AmazonS3()`. -/
def s3Default : AmazonS3 := ⟨none, none, none, TransferConfig.default⟩

/-- A vendor client for which every operation succeeds with a fixed benign
response. -/
def okClient : S3Client where
  create_bucket _ := .ok ()
  list_buckets _ := .ok ["my-bucket"]
  upload_file _ := .ok ()
  upload_fileobj _ := .ok ()
  download_file _ := .ok ()
  download_fileobj _ := .ok ()
  generate_presigned_url _ := .ok "https://s3.example/my-bucket/report.txt"
  generate_presigned_post _ := .ok ⟨"https://s3.example/my-bucket", [("key", "report.txt")]⟩
  get_bucket_policy _ := .ok ⟨"\x7b\x7d"⟩
  put_bucket_policy _ := .ok ()
  delete_bucket_policy _ := .ok ()
  get_bucket_acl _ := .ok .null
  get_bucket_website _ := .ok .null
  put_bucket_website _ := .ok ()
  delete_bucket_website _ := .ok (.obj [("ResponseMetadata", .obj [("HTTPStatusCode", .num 204)])])
  get_bucket_cors _ := .ok ⟨[]⟩
  put_bucket_cors _ := .ok ()

/-- Reading a heap cell just written yields the written dict. -/
theorem Heap.get_set_self (h : Heap) (r : Nat) (d : ExtraArgs) :
    (h.set r d).get r = d := by
  simp [Heap.get, Heap.set]

/-- Writing one heap cell leaves every other cell unchanged. -/
theorem Heap.get_set_ne (h : Heap) (r r' : Nat) (d : ExtraArgs) (hne : r' ≠ r) :
    (h.set r d).get r' = h.get r' := by
  simp [Heap.get, Heap.set, hne]

/-- The propagate policy returns the vendor outcome unchanged and logs nothing. -/
theorem propagate_eq {α : Type} (v : Vendor α) : propagate v = ⟨v, []⟩ := by
  cases v <;> rfl

/-- C1: the swallow-and-log group (`create_bucket`, `upload_file`,
`upload_fileobj`, `create_presigned_url`, `create_presigned_url_expanded`,
`create_presigned_post`) catches a vendor `ClientError`, logs it and
returns its failure sentinel (`False` for the boolean operations, `None`
for the presigned generators) without raising; the propagate group
(`download_file`, `download_fileobj`, `put_bucket_policy`,
`delete_bucket_policy`, `put_bucket_website`, `delete_bucket_website`,
`put_bucket_cors`) lets the vendor `ClientError` reach the caller unhandled
and logs nothing. -/
theorem C1_error_policy_groups :
    (∀ (client : S3Client) (e : ClientError) (self : AmazonS3) (b : String),
      create_bucket self { client with create_bucket := fun _ => .error e } b =
        ⟨.ok false, [e]⟩)
  ∧ (∀ (client : S3Client) (e : ClientError) (self : AmazonS3) (f b : String)
       (o : Option String) (ea : Option ExtraArgs) (cb : Option Callback)
       (cfg : Option TransferConfig),
      upload_file self { client with upload_file := fun _ => .error e } f b o ea cb cfg =
        ⟨.ok false, [e]⟩)
  ∧ (∀ (client : S3Client) (e : ClientError) (self : AmazonS3) (fo : Fileobj)
       (b o : String) (ea : Option ExtraArgs) (cb : Option Callback)
       (cfg : Option TransferConfig),
      upload_fileobj self { client with upload_fileobj := fun _ => .error e } fo b o ea cb cfg =
        ⟨.ok false, [e]⟩)
  ∧ (∀ (client : S3Client) (e : ClientError) (self : AmazonS3) (b o : String) (x : Nat),
      create_presigned_url self { client with generate_presigned_url := fun _ => .error e } b o x =
        ⟨.ok none, [e]⟩)
  ∧ (∀ (client : S3Client) (e : ClientError) (self : AmazonS3) (m : String)
       (p : Option (List (String × String))) (x : Nat) (hm : Option String),
      create_presigned_url_expanded self
          { client with generate_presigned_url := fun _ => .error e } m p x hm =
        ⟨.ok none, [e]⟩)
  ∧ (∀ (client : S3Client) (e : ClientError) (self : AmazonS3) (b o : String)
       (fs : Option (List (String × String))) (cs : Option (List (List (String × String))))
       (x : Nat),
      create_presigned_post self
          { client with generate_presigned_post := fun _ => .error e } b o fs cs x =
        ⟨.ok none, [e]⟩)
  ∧ (∀ (client : S3Client) (e : ClientError) (self : AmazonS3) (b o : String)
       (fn : Option String) (cfg : Option TransferConfig),
      download_file self { client with download_file := fun _ => .error e } b o fn cfg =
        ⟨.error e, []⟩)
  ∧ (∀ (client : S3Client) (e : ClientError) (self : AmazonS3) (b o : String)
       (fo : Fileobj) (cfg : Option TransferConfig),
      download_fileobj self { client with download_file := fun _ => .error e } b o fo cfg =
        ⟨.error e, []⟩)
  ∧ (∀ (client : S3Client) (e : ClientError) (self : AmazonS3) (b : String) (pol : Json),
      put_bucket_policy self { client with put_bucket_policy := fun _ => .error e } b pol =
        ⟨.error e, []⟩)
  ∧ (∀ (client : S3Client) (e : ClientError) (self : AmazonS3) (b : String),
      delete_bucket_policy self { client with delete_bucket_policy := fun _ => .error e } b =
        ⟨.error e, []⟩)
  ∧ (∀ (client : S3Client) (e : ClientError) (self : AmazonS3) (b : String) (w : Json),
      put_bucket_website self { client with put_bucket_website := fun _ => .error e } b w =
        ⟨.error e, []⟩)
  ∧ (∀ (client : S3Client) (e : ClientError) (self : AmazonS3) (b : String),
      delete_bucket_website self { client with delete_bucket_website := fun _ => .error e } b =
        ⟨.error e, []⟩)
  ∧ (∀ (client : S3Client) (e : ClientError) (self : AmazonS3) (b : String) (c : Json),
      put_bucket_cors self { client with put_bucket_cors := fun _ => .error e } b c =
        ⟨.error e, []⟩) :=
  ⟨fun _ e self b => by rcases self with ⟨a, s, r, c⟩; cases r <;> rfl,
   fun _ _ _ _ _ _ _ _ _ => rfl,
   fun _ _ _ _ _ _ _ _ _ => rfl,
   fun _ _ _ _ _ _ => rfl,
   fun _ _ _ _ _ _ _ => rfl,
   fun _ _ _ _ _ _ _ _ => rfl,
   fun _ _ _ _ _ _ _ => rfl,
   fun _ _ _ _ _ _ _ => rfl,
   fun _ _ _ _ _ => rfl,
   fun _ _ _ _ => rfl,
   fun _ _ _ _ _ => rfl,
   fun _ _ _ _ => rfl,
   fun _ _ _ _ _ => rfl⟩

/-- C7: `create_bucket` omits the location constraint exactly when the
facade's region is unset and otherwise submits the configured region, and
it follows the swallow-and-log boolean policy (`True` on success, `False`
with the error logged on a vendor `ClientError`, never raising). -/
theorem C7_create_bucket_location_and_policy :
    ∀ (client : S3Client) (ak sk : Option String) (r : Option String)
      (cfg : TransferConfig) (b : String),
      create_bucket ⟨ak, sk, r, cfg⟩ client b =
        swallowBool (client.create_bucket ⟨b, r.map fun x => ⟨x⟩⟩) := by
  intro client ak sk r cfg b
  cases r with
  | none =>
    cases h : client.create_bucket ⟨b, none⟩ <;>
      simp [create_bucket, swallowBool, h]
  | some x =>
    cases h : client.create_bucket ⟨b, some ⟨x⟩⟩ <;>
      simp [create_bucket, swallowBool, h]

/-- C8: `download_file` with the destination file name omitted passes
`object_name` in the vendor call's `Filename` slot (and otherwise behaves
as the propagate policy on the vendor outcome). -/
theorem C8_download_file_default_destination :
    ∀ (self : AmazonS3) (client : S3Client) (b o : String)
      (cfg : Option TransferConfig),
      download_file self client b o none cfg =
        propagate (client.download_file ⟨b, o, .path o, cfg.getD self.config⟩) := by
  intro self client b o cfg
  rw [propagate_eq]
  rfl

/-- C6: `download_fileobj` invokes the vendor's file-targeted
`download_file` operation, passing the stream object in the `Filename`
slot; its behaviour is independent of the vendor's stream-targeted
`download_fileobj` operation (quantified here as `g`). -/
theorem C6_download_fileobj_calls_file_download :
    ∀ (self : AmazonS3) (client : S3Client) (g : DownloadFileobjCall → Vendor Unit)
      (b o : String) (f : Fileobj) (cfg : Option TransferConfig),
      download_fileobj self { client with download_fileobj := g } b o f cfg =
        propagate (client.download_file ⟨b, o, .stream f, cfg.getD self.config⟩) := by
  intro self client g b o f cfg
  rw [propagate_eq]
  rfl

/-- C2 counterexample: with `object_name` omitted, `upload_fileobj` does
not upload under the stream's name (here `report.txt`): the call raises
`TypeError` before any vendor call (modelled as `none`), whereas the claim
predicts the behaviour of an upload under the stream's name — which, with a
vendor that accepts every upload, would be a logged-nothing `True` result. -/
theorem C2_counterexample :
    call_upload_fileobj s3Default okClient ⟨"report.txt"⟩ "my-bucket" none none none none
      = none ∧
    call_upload_fileobj s3Default okClient ⟨"report.txt"⟩ "my-bucket" none none none none
      ≠ some (upload_fileobj s3Default okClient ⟨"report.txt"⟩ "my-bucket" "report.txt"
          none none none) :=
  ⟨rfl, by decide⟩

/-- C2 (amended): `upload_file` with `objectName` omitted passes the file
path as the vendor call's object key; `upload_fileobj` has no such
defaulting — its `object_name` is a required parameter, so omitting it
raises `TypeError` with no vendor call made, and when it is supplied the
vendor receives exactly the supplied name. -/
theorem C2_amended_upload_object_name_defaulting :
    (∀ (self : AmazonS3) (client : S3Client) (f b : String) (ea : Option ExtraArgs)
       (cb : Option Callback) (cfg : Option TransferConfig),
      upload_file self client f b none ea cb cfg =
        swallowBool (client.upload_file ⟨f, b, f, ea, cb, cfg.getD self.config⟩))
  ∧ (∀ (self : AmazonS3) (client : S3Client) (fo : Fileobj) (b : String)
       (ea : Option ExtraArgs) (cb : Option Callback) (cfg : Option TransferConfig),
      call_upload_fileobj self client fo b none ea cb cfg = none)
  ∧ (∀ (self : AmazonS3) (client : S3Client) (fo : Fileobj) (b o : String)
       (ea : Option ExtraArgs) (cb : Option Callback) (cfg : Option TransferConfig),
      call_upload_fileobj self client fo b (some o) ea cb cfg =
        some (swallowBool (client.upload_fileobj ⟨fo, b, o, ea, cb, cfg.getD self.config⟩))) := by
  refine ⟨?_, ?_, ?_⟩
  · intro self client f b ea cb cfg
    cases h : client.upload_file ⟨f, b, f, ea, cb, cfg.getD self.config⟩ <;>
      simp [upload_file, swallowBool, h]
  · intro self client fo b ea cb cfg
    rfl
  · intro self client fo b o ea cb cfg
    cases h : client.upload_fileobj ⟨fo, b, o, ea, cb, cfg.getD self.config⟩ <;>
      simp [call_upload_fileobj, upload_fileobj, swallowBool, h]

/-- C3: `get_bucket_cors` returns the vendor response's `CORSRules` on
success; a vendor `ClientError` with code `NoSuchCORSConfiguration` yields
the empty list with nothing logged; any other vendor `ClientError` is
logged and yields `None`. -/
theorem C3_get_bucket_cors_policy :
    (∀ (self : AmazonS3) (client : S3Client) (b : String) (rules : List Json),
      get_bucket_cors self { client with get_bucket_cors := fun _ => .ok ⟨rules⟩ } b =
        ⟨.ok (some rules), []⟩)
  ∧ (∀ (self : AmazonS3) (client : S3Client) (b : String),
      get_bucket_cors self
          { client with get_bucket_cors := fun _ => .error ⟨"NoSuchCORSConfiguration"⟩ } b =
        ⟨.ok (some []), []⟩)
  ∧ (∀ (self : AmazonS3) (client : S3Client) (b : String) (e : ClientError),
      e.code ≠ "NoSuchCORSConfiguration" →
      get_bucket_cors self { client with get_bucket_cors := fun _ => .error e } b =
        ⟨.ok none, [e]⟩) := by
  refine ⟨fun _ _ _ _ => rfl, fun _ _ _ => rfl, ?_⟩
  intro self client b e he
  simp [get_bucket_cors, he]

/-- C3 witness: a vendor error other than `NoSuchCORSConfiguration`
(here `AllAccessDisabled`) is logged and mapped to `None`. -/
theorem C3_get_bucket_cors_policy_witness :
    get_bucket_cors s3Default
        { okClient with get_bucket_cors := fun _ => .error ⟨"AllAccessDisabled"⟩ }
        "my-bucket" =
      ⟨.ok none, [⟨"AllAccessDisabled"⟩]⟩ :=
  C3_get_bucket_cors_policy.2.2 s3Default okClient "my-bucket"
    ⟨"AllAccessDisabled"⟩ (by decide)

/-- C4: `put_transfer_config` always returns `True` and replaces the
facade's default transfer configuration with one built from exactly the
call's arguments (an unspecified field is unset/provider-default,
independent of the previous configuration); a subsequent upload with no
explicit config passes exactly the just-installed configuration to the
vendor call. -/
theorem C4_put_transfer_config_replaces_outright :
    (∀ (self : AmazonS3) (mt mc : Option Nat) (ut : Option Bool),
      put_transfer_config self mt mc ut =
        ({ self with config := ⟨mt, mc, ut⟩ }, true))
  ∧ (∀ (self : AmazonS3) (client : S3Client) (mt mc : Option Nat) (ut : Option Bool)
       (f b : String) (o : Option String) (ea : Option ExtraArgs) (cb : Option Callback),
      upload_file (put_transfer_config self mt mc ut).1 client f b o ea cb none =
        swallowBool (client.upload_file ⟨f, b, o.getD f, ea, cb, ⟨mt, mc, ut⟩⟩)) := by
  refine ⟨fun _ _ _ _ => rfl, ?_⟩
  intro self client mt mc ut f b o ea cb
  cases h : client.upload_file ⟨f, b, o.getD f, ea, cb, ⟨mt, mc, ut⟩⟩ <;>
    simp [upload_file, put_transfer_config, swallowBool, h]

/-- C5 counterexample: `delete_bucket_website` does not return the `True`
sentinel once the vendor call returns — it returns the vendor call's raw
response (here a response-metadata dict) verbatim. -/
theorem C5_counterexample :
    delete_bucket_website s3Default okClient "my-bucket" =
      ⟨.ok (.response (.obj [("ResponseMetadata", .obj [("HTTPStatusCode", .num 204)])])), []⟩ ∧
    delete_bucket_website s3Default okClient "my-bucket" ≠
      ⟨.ok (.sentinel true), []⟩ := by
  refine ⟨rfl, fun h => ?_⟩
  rw [show delete_bucket_website s3Default okClient "my-bucket" =
      ⟨.ok (.response (.obj [("ResponseMetadata", .obj [("HTTPStatusCode", .num 204)])])), []⟩
    from rfl] at h
  simp at h

/-- C5 (amended): `put_bucket_policy`, `delete_bucket_policy`,
`put_bucket_website` and `put_bucket_cors` return `True` unconditionally
once the vendor call returns, performing no error translation (a vendor
error propagates); `put_bucket_policy` submits the policy document
JSON-encoded by `Json.dumps`; `delete_bucket_website`, by contrast, returns
the vendor call's raw response rather than `True`. -/
theorem C5_amended_mutator_returns :
    (∀ (self : AmazonS3) (client : S3Client) (b : String) (pol : Json),
      put_bucket_policy self client b pol =
        propagateTrue (client.put_bucket_policy ⟨b, Json.dumps pol⟩))
  ∧ (∀ (self : AmazonS3) (client : S3Client) (b : String),
      delete_bucket_policy self client b =
        propagateTrue (client.delete_bucket_policy b))
  ∧ (∀ (self : AmazonS3) (client : S3Client) (b : String) (w : Json),
      put_bucket_website self client b w =
        propagateTrue (client.put_bucket_website ⟨b, w⟩))
  ∧ (∀ (self : AmazonS3) (client : S3Client) (b : String) (c : Json),
      put_bucket_cors self client b c =
        propagateTrue (client.put_bucket_cors ⟨b, c⟩))
  ∧ (∀ (self : AmazonS3) (client : S3Client) (b : String) (r : Json),
      delete_bucket_website self { client with delete_bucket_website := fun _ => .ok r } b =
        ⟨.ok (.response r), []⟩) := by
  refine ⟨?_, ?_, ?_, ?_, fun _ _ _ _ => rfl⟩
  · intro self client b pol
    cases h : client.put_bucket_policy ⟨b, Json.dumps pol⟩ <;>
      simp [put_bucket_policy, propagateTrue, h]
  · intro self client b
    cases h : client.delete_bucket_policy b <;>
      simp [delete_bucket_policy, propagateTrue, h]
  · intro self client b w
    cases h : client.put_bucket_website ⟨b, w⟩ <;>
      simp [put_bucket_website, propagateTrue, h]
  · intro self client b c
    cases h : client.put_bucket_cors ⟨b, c⟩ <;>
      simp [put_bucket_cors, propagateTrue, h]

/-- Reading a freshly allocated dict yields its initial contents. -/
theorem Heap.get_alloc (h : Heap) (d : ExtraArgs) :
    ((h.alloc d).1).get (h.alloc d).2 = d := by
  simp [Heap.get, Heap.alloc]

/-- C9: each builder, given an explicit dict, augments that dict with its
one option (`ACL=public-read`, `Metadata=…`, `GrantRead` and
`GrantFullControl`) in place and returns the same dict, touching no other
dict; chained on an initially empty dict, `extra_public_read` then
`extra_metadata` yields exactly
`[ACL ↦ public-read, Metadata ↦ the given mapping]`. -/
theorem C9_extra_args_builders :
    (∀ (h : Heap) (r : Nat) (md : List (String × String)),
      extra_metadata md (some r) h =
        (h.set r (dictSet (h.get r) "Metadata" (.map md)), r))
  ∧ (∀ (h : Heap) (r : Nat),
      extra_public_read (some r) h =
        (h.set r (dictSet (h.get r) "ACL" (.str "public-read")), r))
  ∧ (∀ (h : Heap) (r : Nat) (gr gf : String),
      extra_grant gr gf (some r) h =
        ((h.set r (dictSet (h.get r) "GrantRead" (.str gr))).set r
          (dictSet (dictSet (h.get r) "GrantRead" (.str gr))
            "GrantFullControl" (.str gf)),
         r))
  ∧ (∀ (h : Heap) (r r' : Nat) (md : List (String × String)), r' ≠ r →
      ((extra_metadata md (some r) h).1).get r' = h.get r')
  ∧ (∀ (h : Heap) (r r' : Nat), r' ≠ r →
      ((extra_public_read (some r) h).1).get r' = h.get r')
  ∧ (∀ (h : Heap) (r r' : Nat) (gr gf : String), r' ≠ r →
      ((extra_grant gr gf (some r) h).1).get r' = h.get r')
  ∧ (∀ (h : Heap) (k v : String),
      let a := h.alloc []
      let pr := extra_public_read (some a.2) a.1
      let m := extra_metadata [(k, v)] (some pr.2) pr.1
      (m.1).get m.2 = [("ACL", .str "public-read"), ("Metadata", .map [(k, v)])]) := by
  refine ⟨fun _ _ _ => rfl, fun _ _ => rfl, ?_, ?_, ?_, ?_, ?_⟩
  · intro h r gr gf
    simp [extra_grant, Heap.get_set_self]
  · intro h r r' md hne
    simp [extra_metadata, Heap.get_set_ne _ _ _ _ hne]
  · intro h r r' hne
    simp [extra_public_read, Heap.get_set_ne _ _ _ _ hne]
  · intro h r r' gr gf hne
    simp [extra_grant, Heap.get_set_ne _ _ _ _ hne]
  · intro h k v
    simp [extra_public_read, extra_metadata, dictSet,
      Heap.get_alloc, Heap.get_set_self]

/-- C9 witness: with explicit dict reference 5, each builder leaves the
unrelated dict at reference 4 unchanged (empty in the post-load heap). -/
theorem C9_extra_args_builders_witness :
    ((extra_metadata [("k", "v")] (some 5) initHeap).1).get 4 = [] ∧
    ((extra_public_read (some 5) initHeap).1).get 4 = [] ∧
    ((extra_grant "r1" "fc1" (some 5) initHeap).1).get 4 = [] :=
  ⟨C9_extra_args_builders.2.2.2.1 initHeap 5 4 [("k", "v")] (by decide),
   C9_extra_args_builders.2.2.2.2.1 initHeap 5 4 (by decide),
   C9_extra_args_builders.2.2.2.2.2.1 initHeap 5 4 "r1" "fc1" (by decide)⟩

/-- C10: a builder called with its `args` argument omitted reuses the one
default dict object allocated when its `def` was executed — every
no-argument call to the same builder returns the identical reference — so
after `extra_public_read()` with no argument, `extra_metadata(md, result)`
chained on the returned alias, a later no-argument `extra_public_read()`
returns a dict that already contains the `Metadata` entry added earlier. -/
theorem C10_shared_mutable_default_args :
    (∀ (h : Heap) (md : List (String × String)),
      (extra_metadata md none h).2 = extraMetadataDefault)
  ∧ (∀ (h : Heap), (extra_public_read none h).2 = extraPublicReadDefault)
  ∧ (∀ (h : Heap) (gr gf : String),
      (extra_grant gr gf none h).2 = extraGrantDefault)
  ∧ (∀ (md : List (String × String)),
      let c1 := extra_public_read none initHeap
      let c2 := extra_metadata md (some c1.2) c1.1
      let c3 := extra_public_read none c2.1
      (c3.1).get c3.2 = [("ACL", .str "public-read"), ("Metadata", .map md)]) := by
  refine ⟨fun _ _ => rfl, fun _ => rfl, fun _ _ _ => rfl, ?_⟩
  intro md
  simp [extra_public_read, extra_metadata, dictSet, initHeap,
    extraPublicReadDefault, Heap.get, Heap.set]

end S3
